import Mathlib

/-!
Verification of the travel_agent repository's delegation and streaming-relay
logic: a shallow embedding of `RoutingAgent.send_message`
(src/host_agent/routing_agent.py) and of
`TravelPlannerAgentExecutor._process_request` and its content-part
conversion helpers (src/travel_agent/agent_executor.py), with theorems
settling the spec's claims about them.

Python dictionaries holding session state are modelled as functions
`String → Option SVal`; Python truthiness is modelled explicitly; Python
exceptions are modelled as `Except` values.
-/

namespace TravelAgent

/-- A Python value stored in the ADK session-state mapping: the code only
ever stores/reads strings and (for `input_message_metadata`) a dict of
metadata entries. -/
inductive SVal where
  | str : String → SVal
  | dict : List (String × String) → SVal
deriving DecidableEq, Repr

deriving instance DecidableEq for Except

/-- Python truthiness for an `SVal`: a string is truthy iff non-empty, a
dict iff non-empty. -/
def SVal.truthy : SVal → Bool
  | .str s => s ≠ ""
  | .dict d => d ≠ []

/-- Truthiness of `dict.get(k)`: `None` is falsy. -/
def truthyO : Option SVal → Bool
  | some v => v.truthy
  | none => false

/-- The session-state dict (`tool_context.state`): key → value. -/
def SessionState : Type := String → Option SVal

/-- `state[k] = v` (Python dict item assignment). -/
def setKey (st : SessionState) (k : String) (v : SVal) : SessionState :=
  fun k' => if k' = k then some v else st k'

/-- First-match lookup in an embedded Python dict. -/
def lookupKV : List (String × String) → String → Option String
  | [], _ => none
  | (k, v) :: rest, key => if k = key then some v else lookupKV rest key

/-! ### Content-part model (a2a.types and google.genai.types)

The three supported external part variants are `TextPart`,
`FilePart(FileWithUri)` and `FilePart(FileWithBytes)`; the a2a `Part` union
also admits a `DataPart`, which the executor does not support. -/

/-- `FileWithUri` / `FileWithBytes`: the `file` field of an a2a `FilePart`. -/
inductive FileUnion where
  | withUri (uri : String) (mime_type : Option String)
  | withBytes (bytes : String) (mime_type : Option String)
deriving DecidableEq, Repr

/-- The a2a `Part` union (`part.root`). -/
inductive A2APart where
  | text (text : String)
  | file (file : FileUnion)
  | dataPart (payload : List (String × String))
deriving DecidableEq, Repr

/-- `google.genai.types.FileData`. -/
structure FileData where
  file_uri : String
  mime_type : Option String
deriving DecidableEq, Repr

/-- `google.genai.types.Blob` (inline bytes). -/
structure Blob where
  data : String
  mime_type : Option String
deriving DecidableEq, Repr

/-- `google.genai.types.Part`: all fields default to `None`. -/
structure GenaiPart where
  text : Option String
  file_data : Option FileData
  inline_data : Option Blob
deriving DecidableEq, Repr

/-- Python truthiness of `part.text` (an `Optional[str]`). -/
def truthyStrOpt : Option String → Bool
  | some s => s ≠ ""
  | none => false

/-- Name of the Python class of an a2a part, used in the error message of
`_convert_a2a_part_to_genai`. -/
def A2APart.kindName : A2APart → String
  | .text _ => "TextPart"
  | .file _ => "FilePart"
  | .dataPart _ => "DataPart"

/-- `TravelPlannerAgentExecutor._convert_a2a_part_to_genai`
(src/travel_agent/agent_executor.py, lines 182-201): text and the two file
variants convert; anything else raises `ValueError`. -/
def convert_a2a_part_to_genai : A2APart → Except String GenaiPart
  | .text t => .ok { text := some t, file_data := none, inline_data := none }
  | .file (.withUri uri mt) =>
      .ok { text := none, file_data := some ⟨uri, mt⟩, inline_data := none }
  | .file (.withBytes b mt) =>
      .ok { text := none, file_data := none, inline_data := some ⟨b, mt⟩ }
  | p => .error ("Unsupported part type: " ++ p.kindName)

/-- `TravelPlannerAgentExecutor._convert_genai_part_to_a2a`
(src/travel_agent/agent_executor.py, lines 203-220): `if part.text:` is a
truthiness test on the string, while `if part.file_data:` and
`if part.inline_data:` test objects against `None`. -/
def convert_genai_part_to_a2a (p : GenaiPart) : Except String A2APart :=
  if truthyStrOpt p.text then .ok (.text (p.text.getD ""))
  else
    match p.file_data with
    | some fd => .ok (.file (.withUri fd.file_uri fd.mime_type))
    | none =>
      match p.inline_data with
      | some bl => .ok (.file (.withBytes bl.data bl.mime_type))
      | none => .error "Unsupported GenAI part"

/-- external → internal → external round trip. -/
def roundtripPart (p : A2APart) : Except String A2APart :=
  match convert_a2a_part_to_genai p with
  | .error e => .error e
  | .ok g => convert_genai_part_to_a2a g

/-! ### Routing agent model (src/host_agent/routing_agent.py)

`RoutingAgent.send_message` is async Python whose effects are: one optional
remote `client.send_message` call, one write to the session state, and a
returned outcome dict — or a raised exception.  The embedding makes the
nondeterministic inputs explicit: the fresh uuid4 hex strings, the remote
agent's behaviour, and the elapsed time. -/

/-- A raised Python exception, by class. -/
inductive PyErr where
  | valueError (msg : String)
  | unboundLocalError (name : String)
  | typeError (msg : String)
  | validationError (field : String)
deriving DecidableEq, Repr

/-- The validated `MessageSendParams.message` envelope actually sent. -/
structure Message where
  role : String
  parts : List String
  messageId : String
  taskId : Option String
  contextId : Option String
deriving DecidableEq, Repr

/-- Behaviour of the remote connection's `send_message` for this call:
it raises, returns a non-success protocol response, returns a success
whose `result` is not a `Task`, or returns a success carrying a `Task`
(modelled by its fields, `None`-valued fields included). -/
inductive RemoteResponse where
  | raised (text : String)
  | nonSuccess
  | successNonTask
  | successTask (fields : List (String × Option String))
deriving DecidableEq, Repr

/-- `Task.model_dump(exclude_none=True)`: drop `None` fields. -/
def dumpExcludeNone (fields : List (String × Option String)) :
    List (String × String) :=
  fields.filterMap fun p => p.2.map fun v => (p.1, v)

/-- The routing outcome dict returned by `send_message`. -/
inductive Outcome where
  | error (message : String) (agent_name : String)
  | success (agent_name : String) (elapsed_seconds : Nat)
      (task : List (String × String))
deriving DecidableEq, Repr

/-- Result of one embedded `send_message` call: the returned outcome or
raised exception, the session state afterwards, the envelopes dispatched
through the remote connection, and the session state as it stood at the
moment of dispatch (if a dispatch happened). -/
structure SendResult where
  result : Except PyErr Outcome
  finalState : SessionState
  dispatched : List Message
  dispatchState : Option SessionState

/-- `str.lower()` for the ASCII texts involved. -/
def pyLower (s : String) : String := String.mk (s.toList.map Char.toLower)

/-- Character-list prefix test. -/
def listStartsWith : List Char → List Char → Bool
  | [], _ => true
  | _ :: _, [] => false
  | a :: as, b :: bs => a == b && listStartsWith as bs

/-- Character-list infix test (Python `needle in haystack`). -/
def listHasInfix (n : List Char) : List Char → Bool
  | [] => listStartsWith n []
  | b :: bs => listStartsWith n (b :: bs) || listHasInfix n bs

/-- Python `needle in haystack` on strings. -/
def strIn (needle haystack : String) : Bool :=
  listHasInfix needle.toList haystack.toList

/-- Coerce an optional `SVal` field to a pydantic `str | None` field:
`none` means the value fails string validation. -/
def asStrOpt : Option SVal → Option (Option String)
  | none => some none
  | some (.str s) => some (some s)
  | some (.dict _) => none

/-- `MessageSendParams.model_validate(params_data)`: `messageId` must be a
string and `taskId` / `contextId`, when present, must be strings. -/
def validateParams (task : String) (messageId : SVal)
    (taskIdF contextIdF : Option SVal) : Except PyErr Message :=
  match messageId with
  | .dict _ => .error (.validationError "messageId")
  | .str mid =>
    match asStrOpt taskIdF with
    | none => .error (.validationError "taskId")
    | some tid =>
      match asStrOpt contextIdF with
      | none => .error (.validationError "contextId")
      | some cid =>
        .ok { role := "user", parts := [task], messageId := mid,
              taskId := tid, contextId := cid }

/-- Classification of the remote call's outcome
(src/host_agent/routing_agent.py, lines 275-340). -/
def classifyRemote (agent_name : String) (elapsed : Nat) :
    RemoteResponse → Outcome
  | .raised t =>
    if strIn "timeout" (pyLower t) || strIn "timed out" (pyLower t) then
      .error ("Request to " ++ agent_name ++
        " timed out. Please ensure the agent is running and try again.")
        agent_name
    else
      .error ("Failed to communicate with " ++ agent_name ++ ": " ++ t)
        agent_name
  | .nonSuccess =>
      .error (agent_name ++ " returned a non-success response") agent_name
  | .successNonTask =>
      .error (agent_name ++ " returned a non-task response") agent_name
  | .successTask fields =>
      .success agent_name elapsed (dumpExcludeNone fields)

/-- `RoutingAgent.send_message` (src/host_agent/routing_agent.py, lines
210-340).  Line numbers in comments refer to that file.  `registry` is the
key set of `self.remote_agent_connections`; `freshContextId` and
`freshMessageId` are the uuid4 hex values generated on this call. -/
def send_message (registry : List String) (agent_name task : String)
    (state : SessionState) (freshContextId freshMessageId : String)
    (remote : RemoteResponse) (elapsed : Nat) : SendResult :=
  -- lines 225-226: unknown agent raises ValueError
  if agent_name ∉ registry then
    ⟨.error (.valueError ("Agent " ++ agent_name ++ " not found")),
      state, [], none⟩
  else
    -- lines 227-228: state["active_agent"] = agent_name
    let st := setKey state "active_agent" (SVal.str agent_name)
    -- lines 229-232: client lookup; a registered client object is truthy
    -- line 234: task_id = state.get("task_id")
    let task_id := st "task_id"
    -- lines 235-236: params_data is referenced before its assignment at
    -- line 252, so entering this branch raises UnboundLocalError
    if truthyO task_id &&
        decide (st "active_agent" = some (SVal.str agent_name)) then
      ⟨.error (.unboundLocalError "params_data"), st, [], none⟩
    else
      -- lines 238-241: reuse state["context_id"] or generate a fresh uuid
      let context_id : SVal :=
        match st "context_id" with
        | some v => v
        | none => SVal.str freshContextId
      -- lines 243-248: metadata handling; update(**v) on a non-mapping
      -- raises TypeError
      match st "input_message_metadata" with
      | some (.str _) =>
        ⟨.error (.typeError "update() argument must be a mapping"),
          st, [], none⟩
      | mmeta =>
        let mid0 : SVal :=
          match mmeta with
          | some (.dict d) =>
            match lookupKV d "message_id" with
            | some v => SVal.str v
            | none => SVal.str ""
          | _ => SVal.str ""
        -- lines 249-250: if not message_id: fresh uuid
        let message_id := if mid0.truthy then mid0 else SVal.str freshMessageId
        -- lines 252-261: build params_data; taskId only if task_id truthy
        let taskIdF : Option SVal := if truthyO task_id then task_id else none
        -- lines 263-264: contextId only if context_id truthy
        let contextIdF : Option SVal :=
          if context_id.truthy then some context_id else none
        -- line 267: MessageSendParams.model_validate
        match validateParams task message_id taskIdF contextIdF with
        | .error e => ⟨.error e, st, [], none⟩
        | .ok msg =>
          -- lines 275-340: dispatch and classify; the telemetry push
          -- (lines 296-309) is swallowed and alters nothing modelled here
          ⟨.ok (classifyRemote agent_name elapsed remote), st, [msg],
            some st⟩

/-- States from which `send_message` reaches the remote dispatch (no
exception is raised before `client.send_message`): the agent is
registered, `state.get("task_id")` is falsy (a truthy `task_id` hits the
use-before-assignment of `params_data`), `input_message_metadata` is
absent or a dict, and the `context_id` entry, if any, is a string or a
falsy dict (a truthy dict fails `MessageSendParams` validation). -/
def reachesDispatch (registry : List String) (agent_name : String)
    (state : SessionState) : Bool :=
  decide (agent_name ∈ registry) &&
  !truthyO (state "task_id") &&
  (match state "input_message_metadata" with
   | none => true
   | some (.dict _) => true
   | some (.str _) => false) &&
  (match state "context_id" with
   | none => true
   | some (.str _) => true
   | some (.dict d) => decide (d = []))

/-- The `messageId` a dispatch-reaching call puts in the envelope: the
truthy `message_id` from `input_message_metadata` if present, else the
freshly generated uuid. -/
def resolvedMessageId (mm : Option SVal) (fm : String) : String :=
  match mm with
  | some (.dict d) =>
    match lookupKV d "message_id" with
    | some v => if v ≠ "" then v else fm
    | none => fm
  | _ => fm

/-- The `contextId` a dispatch-reaching call puts in the envelope: the
truthy `context_id` from the session state if present, else the freshly
generated uuid (omitted when falsy). -/
def resolvedContextId (v : Option SVal) (fc : String) : Option String :=
  match v with
  | some (.str c) => if c ≠ "" then some c else none
  | some (.dict _) => none
  | none => if fc ≠ "" then some fc else none

/-- The envelope a dispatch-reaching call sends. -/
def dispatchedEnvelope (task : String) (state : SessionState)
    (fc fm : String) : Message :=
  { role := "user", parts := [task],
    messageId := resolvedMessageId (state "input_message_metadata") fm,
    taskId := none,
    contextId := resolvedContextId (state "context_id") fc }

/-- Master lemma: on any state satisfying `reachesDispatch`,
`send_message` marks the agent active, sends exactly one envelope (built
as `dispatchedEnvelope`), and returns the classification of the remote
response. -/
theorem send_message_dispatch
    (registry : List String) (agent_name task : String)
    (state : SessionState) (fc fm : String) (remote : RemoteResponse)
    (elapsed : Nat)
    (h : reachesDispatch registry agent_name state = true) :
    send_message registry agent_name task state fc fm remote elapsed =
      { result := Except.ok (classifyRemote agent_name elapsed remote),
        finalState := setKey state "active_agent" (SVal.str agent_name),
        dispatched := [dispatchedEnvelope task state fc fm],
        dispatchState :=
          some (setKey state "active_agent" (SVal.str agent_name)) } := by
  unfold reachesDispatch at h
  simp only [Bool.and_eq_true, Bool.not_eq_true', decide_eq_true_eq] at h
  obtain ⟨⟨⟨hreg, htask⟩, hmeta⟩, hctx⟩ := h
  have hsk_task :
      setKey state "active_agent" (SVal.str agent_name) "task_id" =
        state "task_id" := by simp [setKey]
  have hsk_ctx :
      setKey state "active_agent" (SVal.str agent_name) "context_id" =
        state "context_id" := by simp [setKey]
  have hsk_meta :
      setKey state "active_agent" (SVal.str agent_name)
        "input_message_metadata" = state "input_message_metadata" := by
    simp [setKey]
  unfold send_message
  rw [if_neg (not_not_intro hreg)]
  simp only [hsk_task, hsk_ctx, hsk_meta, htask, Bool.false_and, if_neg,
    Bool.false_eq_true, not_false_eq_true, ite_false]
  unfold dispatchedEnvelope resolvedMessageId resolvedContextId
  cases hm : state "input_message_metadata" with
  | none =>
    cases hc : state "context_id" with
    | none =>
      by_cases hfc : fc = "" <;>
        simp [validateParams, asStrOpt, SVal.truthy, truthyO, hfc]
    | some v =>
      cases v with
      | str c =>
        by_cases hcc : c = "" <;>
          simp [validateParams, asStrOpt, SVal.truthy, truthyO, hcc]
      | dict d =>
        rw [hc] at hctx
        simp only [decide_eq_true_eq] at hctx
        subst hctx
        simp [validateParams, asStrOpt, SVal.truthy, truthyO]
  | some v =>
    cases v with
    | str s => rw [hm] at hmeta; simp at hmeta
    | dict d =>
      cases hl : lookupKV d "message_id" with
      | none =>
        cases hc : state "context_id" with
        | none =>
          by_cases hfc : fc = "" <;>
            simp [validateParams, asStrOpt, SVal.truthy, truthyO, hfc, hl]
        | some v =>
          cases v with
          | str c =>
            by_cases hcc : c = "" <;>
              simp [validateParams, asStrOpt, SVal.truthy, truthyO, hcc, hl]
          | dict dd =>
            rw [hc] at hctx
            simp only [decide_eq_true_eq] at hctx
            subst hctx
            simp [validateParams, asStrOpt, SVal.truthy, truthyO, hl]
      | some mv =>
        by_cases hmv : mv = "" <;>
        · cases hc : state "context_id" with
          | none =>
            by_cases hfc : fc = "" <;>
              simp [validateParams, asStrOpt, SVal.truthy, truthyO, hfc, hmv,
                hl]
          | some v =>
            cases v with
            | str c =>
              by_cases hcc : c = "" <;>
                simp [validateParams, asStrOpt, SVal.truthy, truthyO, hcc,
                  hmv, hl]
            | dict dd =>
              rw [hc] at hctx
              simp only [decide_eq_true_eq] at hctx
              subst hctx
              simp [validateParams, asStrOpt, SVal.truthy, truthyO, hmv, hl]

/-! ### Streaming executor model
(`TravelPlannerAgentExecutor._process_request`,
src/travel_agent/agent_executor.py, lines 52-119)

The runner's async event stream is modelled as the list of events it
yields followed by an optional exception text it raises afterwards; if the
loop breaks at a final-response event, that trailing exception is never
encountered.  The `TaskUpdater` sink is modelled as the ordered list of
updates emitted. -/

/-- `a2a.types.TaskState` values used by the executor. -/
inductive TaskState where
  | submitted
  | working
  | completed
  | failed
deriving DecidableEq, Repr

/-- One event from `runner.run_async`: whether `is_final_response()`, the
`content.parts`, and whether `get_function_calls()` is non-empty. -/
structure Event where
  isFinal : Bool
  parts : List GenaiPart
  hasFunctionCalls : Bool
deriving Repr

/-- One update emitted through the `TaskUpdater` sink. -/
inductive UpdateEvent where
  | status (s : TaskState) (message : Option String) (final : Bool)
  | artifact (parts : List A2APart)
  | streamArtifact (name text : String)
deriving DecidableEq, Repr

/-- The executor's `_active_sessions` set. -/
def SessSet : Type := String → Bool

/-- `set.add(x)`. -/
def sessAdd (S : SessSet) (x : String) : SessSet :=
  fun y => y == x || S y

/-- `set.discard(x)`. -/
def sessDiscard (S : SessSet) (x : String) : SessSet :=
  fun y => y != x && S y

/-- Filter in the final-response branch (line 77):
`part.text or part.file_data or part.inline_data`, with Python
truthiness on the string and `None`-tests on the objects. -/
def finalPartFilter (p : GenaiPart) : Bool :=
  truthyStrOpt p.text || p.file_data.isSome || p.inline_data.isSome

/-- The list comprehension converting the selected final parts; the first
conversion error aborts it with that raised error. -/
def convertPartList : List GenaiPart → Except String (List A2APart)
  | [] => .ok []
  | p :: rest =>
    match convert_genai_part_to_a2a p with
    | .error e => .error e
    | .ok a =>
      match convertPartList rest with
      | .error e => .error e
      | .ok as => .ok (a :: as)

/-- The `async for` loop body of `_process_request` (lines 66-107):
returns the updates emitted and the exception, if any, that reached the
`except` clause. -/
def runLoop : List Event → Option String → List UpdateEvent →
    List UpdateEvent × Option String
  | [], exn, acc => (acc, exn)
  | e :: rest, exn, acc =>
    if e.isFinal then
      -- lines 73-82: convert parts, attach artifact if any, complete, break
      match convertPartList (e.parts.filter finalPartFilter) with
      | .error m => (acc, some m)
      | .ok ps =>
        let acc1 := if ps.isEmpty then acc else acc ++ [.artifact ps]
        (acc1 ++ [.status .completed none true], none)
    else if !e.hasFunctionCalls then
      -- lines 85-103: streaming text updates
      let texts := e.parts.filterMap fun p =>
        match p.text with
        | some t => if t ≠ "" then some t else none
        | none => none
      if !texts.isEmpty then
        runLoop rest exn
          (acc ++ [.status .working (some (String.join texts)) false])
      else
        runLoop rest exn (acc ++ [.streamArtifact "stream" "."])
    else
      -- lines 106-107: tool call in progress
      runLoop rest exn (acc ++ [.status .working none false])

/-- Result of `_process_request`: the updates emitted and the
`_active_sessions` set afterwards. -/
structure ProcResult where
  updates : List UpdateEvent
  activeSessions : SessSet

/-- `TravelPlannerAgentExecutor._process_request` (lines 52-119): add the
session id to `_active_sessions`, consume the stream, convert an escaped
exception into a terminal `failed` status, and discard the session id in
the `finally` block on every path. -/
def process_request (active0 : SessSet) (session_id : String)
    (events : List Event) (exn : Option String) : ProcResult :=
  let active1 := sessAdd active0 session_id
  let r := runLoop events exn []
  match r.2 with
  | some m =>
    { updates := r.1 ++
        [.status .failed (some ("Sorry, something went wrong: " ++ m)) true],
      activeSessions := sessDiscard active1 session_id }
  | none =>
    { updates := r.1, activeSessions := sessDiscard active1 session_id }


/-- The empty session state, for concrete scenarios. -/
def emptyState : SessionState := fun _ => none

/-! ### Claim theorems -/

/-- C1, counterexample: delegating to the unregistered name
"UnknownAgent" does not return the routing outcome
`{status: "error", message: "Agent UnknownAgent not found"}` — it raises
`ValueError("Agent UnknownAgent not found")` instead (though indeed no
envelope is dispatched). -/
theorem c1_counterexample :
    (send_message ["BudgetAgent"] "UnknownAgent" "plan a trip" emptyState
        "c" "m" .nonSuccess 0).result ≠
      Except.ok (Outcome.error "Agent UnknownAgent not found"
        "UnknownAgent") ∧
    (send_message ["BudgetAgent"] "UnknownAgent" "plan a trip" emptyState
        "c" "m" .nonSuccess 0).result =
      Except.error (PyErr.valueError "Agent UnknownAgent not found") ∧
    (send_message ["BudgetAgent"] "UnknownAgent" "plan a trip" emptyState
        "c" "m" .nonSuccess 0).dispatched = [] := by
  refine ⟨by decide, by decide, by decide⟩

/-- C1, amended: for every session state and every agent name not in the
routing directory, `send_message` raises
`ValueError("Agent <name> not found")` (rather than returning an error
outcome), and the remote connection's send is never invoked. -/
theorem c1_theorem (registry : List String) (agent_name task : String)
    (state : SessionState) (fc fm : String) (remote : RemoteResponse)
    (elapsed : Nat) (h : agent_name ∉ registry) :
    (send_message registry agent_name task state fc fm remote
        elapsed).result =
      Except.error
        (PyErr.valueError ("Agent " ++ agent_name ++ " not found")) ∧
    (send_message registry agent_name task state fc fm remote
        elapsed).dispatched = [] := by
  unfold send_message
  rw [if_pos h]
  exact ⟨rfl, rfl⟩

/-- C1, witness: the amended claim at a concrete unregistered name. -/
theorem c1_witness :
    (send_message ["BudgetAgent"] "UnknownAgent" "plan a trip" emptyState
        "c" "m" .nonSuccess 0).result =
      Except.error
        (PyErr.valueError ("Agent " ++ "UnknownAgent" ++ " not found")) ∧
    (send_message ["BudgetAgent"] "UnknownAgent" "plan a trip" emptyState
        "c" "m" .nonSuccess 0).dispatched = [] :=
  c1_theorem ["BudgetAgent"] "UnknownAgent" "plan a trip" emptyState
    "c" "m" .nonSuccess 0 (by decide)

/-- C2: on a session state that already carries the established task id
"t1" with "BudgetAgent" as the active agent, delegating to "BudgetAgent"
does not complete and does not send any envelope: because lines 235-236
of src/host_agent/routing_agent.py reference `params_data` before its
assignment at line 252, the call raises `UnboundLocalError` instead of
resuming the task. -/
theorem c2_theorem :
    (send_message ["BudgetAgent"] "BudgetAgent" "resume the plan"
        (setKey (setKey emptyState "task_id" (SVal.str "t1"))
          "active_agent" (SVal.str "BudgetAgent"))
        "c" "m" (.successTask [("id", some "t1")]) 0).result =
      Except.error (PyErr.unboundLocalError "params_data") ∧
    (send_message ["BudgetAgent"] "BudgetAgent" "resume the plan"
        (setKey (setKey emptyState "task_id" (SVal.str "t1"))
          "active_agent" (SVal.str "BudgetAgent"))
        "c" "m" (.successTask [("id", some "t1")]) 0).dispatched = [] := by
  refine ⟨by decide, by decide⟩

/-- C4, counterexample: the external→internal→external round trip fails
for the supported plain-text variant at text "": the internal part gets
`text=""`, which is falsy, so the reverse conversion raises instead of
returning an equivalent part. -/
theorem c4_counterexample :
    roundtripPart (A2APart.text "") = .error "Unsupported GenAI part" ∧
    roundtripPart (A2APart.text "") ≠ .ok (A2APart.text "") := by
  refine ⟨by decide, by decide⟩

/-- C4, amended: the round trip yields an equal part for file-by-uri and
file-by-inline-bytes parts at every field value, and for plain-text parts
whose text is non-empty; a text part with empty text instead fails the
reverse conversion. -/
theorem c4_theorem (t uri b : String) (mu mb : Option String)
    (h : t ≠ "") :
    roundtripPart (A2APart.text t) = .ok (A2APart.text t) ∧
    roundtripPart (A2APart.file (.withUri uri mu)) =
      .ok (A2APart.file (.withUri uri mu)) ∧
    roundtripPart (A2APart.file (.withBytes b mb)) =
      .ok (A2APart.file (.withBytes b mb)) := by
  refine ⟨?_, ?_, ?_⟩ <;>
    simp [roundtripPart, convert_a2a_part_to_genai,
      convert_genai_part_to_a2a, truthyStrOpt, h]

/-- C4, witness: the amended round-trip claim at concrete parts. -/
theorem c4_witness :
    roundtripPart (A2APart.text "hello") = .ok (A2APart.text "hello") ∧
    roundtripPart (A2APart.file (.withUri "u" (some "text/plain"))) =
      .ok (A2APart.file (.withUri "u" (some "text/plain"))) ∧
    roundtripPart (A2APart.file (.withBytes "QUJD" none)) =
      .ok (A2APart.file (.withBytes "QUJD" none)) :=
  c4_theorem "hello" "u" "QUJD" (some "text/plain") none (by decide)

/-- C9: conversion of an unsupported part fails with a descriptive error
in both directions: `_convert_a2a_part_to_genai` raises `ValueError` on
any `DataPart`, and `_convert_genai_part_to_a2a` raises `ValueError` on
any internal part carrying none of `text`, `file_data`, `inline_data`;
neither returns a null/dropped part. -/
theorem c9_theorem (payload : List (String × String)) (p : GenaiPart)
    (h1 : p.text = none) (h2 : p.file_data = none)
    (h3 : p.inline_data = none) :
    convert_a2a_part_to_genai (A2APart.dataPart payload) =
      .error "Unsupported part type: DataPart" ∧
    convert_genai_part_to_a2a p = .error "Unsupported GenAI part" := by
  constructor
  · rfl
  · simp [convert_genai_part_to_a2a, truthyStrOpt, h1, h2, h3]

/-- C9, witness: both directions fail at concrete unsupported parts. -/
theorem c9_witness :
    convert_a2a_part_to_genai (A2APart.dataPart [("k", "v")]) =
      .error "Unsupported part type: DataPart" ∧
    convert_genai_part_to_a2a ⟨none, none, none⟩ =
      .error "Unsupported GenAI part" :=
  c9_theorem [("k", "v")] ⟨none, none, none⟩ rfl rfl rfl

/-- A list starts with itself. -/
theorem listStartsWith_self (l : List Char) : listStartsWith l l = true := by
  induction l with
  | nil => rfl
  | cons a as ih => simp [listStartsWith, ih]

/-- Infixhood is preserved by prepending. -/
theorem listHasInfix_append (n a b : List Char)
    (h : listHasInfix n b = true) : listHasInfix n (a ++ b) = true := by
  induction a with
  | nil => simpa using h
  | cons x xs ih =>
    simp only [List.cons_append, listHasInfix, Bool.or_eq_true]
    exact Or.inr ih

/-- Every list is an infix of itself. -/
theorem listHasInfix_self (n : List Char) : listHasInfix n n = true := by
  cases n with
  | nil => rfl
  | cons a as =>
    simp only [listHasInfix, Bool.or_eq_true]
    exact Or.inl (listStartsWith_self (a :: as))

/-- `strIn` is preserved by prepending text. -/
theorem strIn_append_right (n a b : String) (h : strIn n b = true) :
    strIn n (a ++ b) = true := by
  unfold strIn at *
  have hl : (a ++ b).toList = a.toList ++ b.toList := by
    simp [String.toList, String.data_append]
  rw [hl]
  exact listHasInfix_append _ _ _ h

/-- Every string contains itself. -/
theorem strIn_self (n : String) : strIn n n = true :=
  listHasInfix_self n.toList

/-- Writing `active_agent` does not change whether a state reaches the
dispatch step. -/
theorem reachesDispatch_setKey_active (registry : List String)
    (agent_name : String) (state : SessionState) (v : SVal) :
    reachesDispatch registry agent_name
        (setKey state "active_agent" v) =
      reachesDispatch registry agent_name state := by
  unfold reachesDispatch
  simp [setKey]

/-- For a registered agent, every path of `send_message` leaves the state
with `active_agent` freshly written, and a dispatch (if one happens) sees
exactly that state. -/
theorem send_message_state_shape (registry : List String)
    (agent_name task : String) (state : SessionState) (fc fm : String)
    (remote : RemoteResponse) (elapsed : Nat) (h : agent_name ∈ registry) :
    (send_message registry agent_name task state fc fm remote
        elapsed).finalState =
      setKey state "active_agent" (SVal.str agent_name) ∧
    ((send_message registry agent_name task state fc fm remote
        elapsed).dispatchState = none ∨
     (send_message registry agent_name task state fc fm remote
        elapsed).dispatchState =
       some (setKey state "active_agent" (SVal.str agent_name))) := by
  unfold send_message
  rw [if_neg (not_not_intro h)]
  dsimp only
  repeat' split
  all_goals first
    | exact ⟨rfl, Or.inl rfl⟩
    | exact ⟨rfl, Or.inr rfl⟩

/-- C3, counterexample: on a session state with no `context_id`, two
successive `send_message` calls (fresh uuids "u1" then "u2") put the two
different fresh ids in their envelopes — the generated `context_id` is
not held in the session state, so the second call does not reuse the
first one's. -/
theorem c3_counterexample :
    (send_message ["BudgetAgent"] "BudgetAgent" "first question"
        emptyState "u1" "m1" .nonSuccess 0).dispatched.map
        Message.contextId = [some "u1"] ∧
    (send_message ["BudgetAgent"] "BudgetAgent" "second question"
        (send_message ["BudgetAgent"] "BudgetAgent" "first question"
          emptyState "u1" "m1" .nonSuccess 0).finalState
        "u2" "m2" .nonSuccess 0).dispatched.map
        Message.contextId = [some "u2"] ∧
    (some ("u1" : String)) ≠ some "u2" := by
  refine ⟨by decide, by decide, by decide⟩

/-- C3, amended: a `context_id` already present in the session state is
used as the outgoing `contextId` by this call and by the next one, but a
freshly generated `context_id` is never stored back: the state's
`context_id` entry is unchanged by the call, so successive calls on a
state without one each use their own fresh id. -/
theorem c3_theorem (registry : List String)
    (agent_name task1 task2 fc1 fm1 fc2 fm2 : String)
    (state : SessionState) (r1 r2 : RemoteResponse) (e1 e2 : Nat)
    (h : reachesDispatch registry agent_name state = true) :
    (send_message registry agent_name task1 state fc1 fm1 r1
        e1).finalState "context_id" = state "context_id" ∧
    (∀ c : String, state "context_id" = some (SVal.str c) → c ≠ "" →
      (send_message registry agent_name task1 state fc1 fm1 r1
          e1).dispatched.map Message.contextId = [some c] ∧
      (send_message registry agent_name task2
          (send_message registry agent_name task1 state fc1 fm1 r1
            e1).finalState fc2 fm2 r2 e2).dispatched.map
          Message.contextId = [some c]) ∧
    (state "context_id" = none → fc1 ≠ "" → fc2 ≠ "" →
      (send_message registry agent_name task1 state fc1 fm1 r1
          e1).dispatched.map Message.contextId = [some fc1] ∧
      (send_message registry agent_name task2
          (send_message registry agent_name task1 state fc1 fm1 r1
            e1).finalState fc2 fm2 r2 e2).dispatched.map
          Message.contextId = [some fc2]) := by
  have h2 : reachesDispatch registry agent_name
      (setKey state "active_agent" (SVal.str agent_name)) = true := by
    rw [reachesDispatch_setKey_active]; exact h
  rw [send_message_dispatch registry agent_name task1 state fc1 fm1 r1 e1 h]
  simp only
  rw [send_message_dispatch registry agent_name task2 _ fc2 fm2 r2 e2 h2]
  refine ⟨by simp [setKey], ?_, ?_⟩
  · intro c hc hcne
    constructor
    · simp [dispatchedEnvelope, resolvedContextId, hc, hcne]
    · simp [dispatchedEnvelope, resolvedContextId, setKey, hc, hcne]
  · intro hc hf1 hf2
    constructor
    · simp [dispatchedEnvelope, resolvedContextId, hc, hf1]
    · simp [dispatchedEnvelope, resolvedContextId, setKey, hc, hf2]

/-- C3, witness: the amended claim at a concrete reusable context id. -/
theorem c3_witness :
    (send_message ["BudgetAgent"] "BudgetAgent" "first" 
        (setKey emptyState "context_id" (SVal.str "ctx1")) "u1" "m1"
        .nonSuccess 0).finalState "context_id" =
      (setKey emptyState "context_id" (SVal.str "ctx1")) "context_id" ∧
    (∀ c : String,
      (setKey emptyState "context_id" (SVal.str "ctx1")) "context_id" =
        some (SVal.str c) → c ≠ "" →
      (send_message ["BudgetAgent"] "BudgetAgent" "first"
          (setKey emptyState "context_id" (SVal.str "ctx1")) "u1" "m1"
          .nonSuccess 0).dispatched.map Message.contextId = [some c] ∧
      (send_message ["BudgetAgent"] "BudgetAgent" "second"
          (send_message ["BudgetAgent"] "BudgetAgent" "first"
            (setKey emptyState "context_id" (SVal.str "ctx1")) "u1" "m1"
            .nonSuccess 0).finalState "u2" "m2" .nonSuccess 0).dispatched.map
          Message.contextId = [some c]) ∧
    ((setKey emptyState "context_id" (SVal.str "ctx1")) "context_id" =
        none → "u1" ≠ "" → "u2" ≠ "" →
      (send_message ["BudgetAgent"] "BudgetAgent" "first"
          (setKey emptyState "context_id" (SVal.str "ctx1")) "u1" "m1"
          .nonSuccess 0).dispatched.map Message.contextId = [some "u1"] ∧
      (send_message ["BudgetAgent"] "BudgetAgent" "second"
          (send_message ["BudgetAgent"] "BudgetAgent" "first"
            (setKey emptyState "context_id" (SVal.str "ctx1")) "u1" "m1"
            .nonSuccess 0).finalState "u2" "m2" .nonSuccess 0).dispatched.map
          Message.contextId = [some "u2"]) :=
  c3_theorem ["BudgetAgent"] "BudgetAgent" "first" "second" "u1" "m1"
    "u2" "m2" (setKey emptyState "context_id" (SVal.str "ctx1"))
    .nonSuccess .nonSuccess 0 0 (by decide)

/-- C6: for every delegation attempt on a registered agent name —
whatever the remote response, including raised transport errors — the
session state after `send_message` has `active_agent` equal to the
attempted name, and the state seen at the moment of dispatch (when a
dispatch happens) already carries that assignment. -/
theorem c6_theorem (registry : List String) (agent_name task : String)
    (state : SessionState) (fc fm : String) (remote : RemoteResponse)
    (elapsed : Nat) (h : agent_name ∈ registry) :
    (send_message registry agent_name task state fc fm remote
        elapsed).finalState "active_agent" = some (SVal.str agent_name) ∧
    (∀ dst : SessionState,
      (send_message registry agent_name task state fc fm remote
        elapsed).dispatchState = some dst →
      dst "active_agent" = some (SVal.str agent_name)) := by
  obtain ⟨h1, h2⟩ := send_message_state_shape registry agent_name task
    state fc fm remote elapsed h
  constructor
  · rw [h1]; simp [setKey]
  · intro dst hd
    rcases h2 with h2 | h2
    · rw [h2] at hd; cases hd
    · rw [h2] at hd
      cases hd
      simp [setKey]

/-- C6, witness: a failed remote call on a registered agent still leaves
`active_agent` pointing at it, assigned before dispatch. -/
theorem c6_witness :
    (send_message ["BudgetAgent"] "BudgetAgent" "plan a trip" emptyState
        "c" "m" (.raised "connection refused") 0).finalState
        "active_agent" = some (SVal.str "BudgetAgent") ∧
    (∀ dst : SessionState,
      (send_message ["BudgetAgent"] "BudgetAgent" "plan a trip" emptyState
        "c" "m" (.raised "connection refused") 0).dispatchState =
        some dst →
      dst "active_agent" = some (SVal.str "BudgetAgent")) :=
  c6_theorem ["BudgetAgent"] "BudgetAgent" "plan a trip" emptyState
    "c" "m" (.raised "connection refused") 0 (by decide)

/-- C10: a `send_message` call that reaches the dispatch step writes only
the `active_agent` session-state key: every other key — in particular
`context_id` and any key a freshly generated id could go to — is
unchanged afterwards. -/
theorem c10_theorem (registry : List String) (agent_name task : String)
    (state : SessionState) (fc fm : String) (remote : RemoteResponse)
    (elapsed : Nat)
    (h : reachesDispatch registry agent_name state = true)
    (k : String) (hk : k ≠ "active_agent") :
    (send_message registry agent_name task state fc fm remote
        elapsed).finalState k = state k ∧
    (send_message registry agent_name task state fc fm remote
        elapsed).finalState "active_agent" = some (SVal.str agent_name) := by
  rw [send_message_dispatch registry agent_name task state fc fm remote
    elapsed h]
  constructor
  · simp [setKey, hk]
  · simp [setKey]

/-- C10, witness: at a concrete dispatch-reaching call, the `context_id`
key is untouched and only `active_agent` is written. -/
theorem c10_witness :
    (send_message ["BudgetAgent"] "BudgetAgent" "plan a trip" emptyState
        "c" "m" .nonSuccess 0).finalState "context_id" =
      emptyState "context_id" ∧
    (send_message ["BudgetAgent"] "BudgetAgent" "plan a trip" emptyState
        "c" "m" .nonSuccess 0).finalState "active_agent" =
      some (SVal.str "BudgetAgent") :=
  c10_theorem ["BudgetAgent"] "BudgetAgent" "plan a trip" emptyState
    "c" "m" .nonSuccess 0 (by decide) "context_id" (by decide)

/-- C7: for every call that reaches the remote dispatch, the response is
classified exactly as claimed: a non-success protocol response gives
`{status: error, message: "<agent> returned a non-success response"}`, a
success whose payload is not a task gives
`{status: error, message: "<agent> returned a non-task response"}`, and a
success carrying a task gives `{status: success}` with the agent name,
the elapsed seconds and the task payload normalized by dropping `None`
fields. -/
theorem c7_theorem (registry : List String) (agent_name task : String)
    (state : SessionState) (fc fm : String) (elapsed : Nat)
    (fields : List (String × Option String))
    (h : reachesDispatch registry agent_name state = true) :
    (send_message registry agent_name task state fc fm .nonSuccess
        elapsed).result =
      Except.ok (Outcome.error
        (agent_name ++ " returned a non-success response") agent_name) ∧
    (send_message registry agent_name task state fc fm .successNonTask
        elapsed).result =
      Except.ok (Outcome.error
        (agent_name ++ " returned a non-task response") agent_name) ∧
    (send_message registry agent_name task state fc fm
        (.successTask fields) elapsed).result =
      Except.ok (Outcome.success agent_name elapsed
        (dumpExcludeNone fields)) := by
  rw [send_message_dispatch registry agent_name task state fc fm
      .nonSuccess elapsed h,
    send_message_dispatch registry agent_name task state fc fm
      .successNonTask elapsed h,
    send_message_dispatch registry agent_name task state fc fm
      (.successTask fields) elapsed h]
  exact ⟨rfl, rfl, rfl⟩

/-- C7, witness: the three response classifications at a concrete call,
with the stub task payload `{id: "t1", status: "completed"}`. -/
theorem c7_witness :
    (send_message ["BudgetAgent"] "BudgetAgent"
        "Estimate a 5-day Tokyo trip for 1500 dollars" emptyState "c" "m"
        .nonSuccess 2).result =
      Except.ok (Outcome.error
        ("BudgetAgent" ++ " returned a non-success response")
        "BudgetAgent") ∧
    (send_message ["BudgetAgent"] "BudgetAgent"
        "Estimate a 5-day Tokyo trip for 1500 dollars" emptyState "c" "m"
        .successNonTask 2).result =
      Except.ok (Outcome.error
        ("BudgetAgent" ++ " returned a non-task response") "BudgetAgent") ∧
    (send_message ["BudgetAgent"] "BudgetAgent"
        "Estimate a 5-day Tokyo trip for 1500 dollars" emptyState "c" "m"
        (.successTask [("id", some "t1"), ("status", some "completed"),
          ("metadata", none)]) 2).result =
      Except.ok (Outcome.success "BudgetAgent" 2
        (dumpExcludeNone [("id", some "t1"), ("status", some "completed"),
          ("metadata", none)])) :=
  c7_theorem ["BudgetAgent"] "BudgetAgent"
    "Estimate a 5-day Tokyo trip for 1500 dollars" emptyState "c" "m" 2
    [("id", some "t1"), ("status", some "completed"), ("metadata", none)]
    (by decide)

/-- C8, counterexample: the remote send raises an exception whose text is
"TIMEOUT", which contains neither "timeout" nor "timed out" (the claim's
conditions are case-sensitive substring tests), so by the claim the
outcome message should contain the exception text "TIMEOUT" — but the
code lowercases first, takes the timeout branch, and returns a message
that does not contain "TIMEOUT". -/
theorem c8_counterexample :
    strIn "timeout" "TIMEOUT" = false ∧
    strIn "timed out" "TIMEOUT" = false ∧
    (send_message ["BudgetAgent"] "BudgetAgent" "plan a trip" emptyState
        "c" "m" (.raised "TIMEOUT") 0).result =
      Except.ok (Outcome.error
        ("Request to BudgetAgent timed out. " ++
          "Please ensure the agent is running and try again.")
        "BudgetAgent") ∧
    strIn "TIMEOUT"
      ("Request to BudgetAgent timed out. " ++
        "Please ensure the agent is running and try again.") = false := by
  refine ⟨by decide, by decide, by decide, by decide⟩

/-- C8, amended: exceptions from the remote send are classified on the
lowercased exception text: if it contains "timeout" or "timed out" the
outcome is `{status: error, agent_name}` with a message containing
"timed out"; otherwise the outcome is `{status: error, agent_name}` with
a message containing the exception text; in both cases `send_message`
returns the outcome instead of re-raising. -/
theorem c8_theorem (registry : List String) (agent_name task : String)
    (state : SessionState) (fc fm t : String) (elapsed : Nat)
    (h : reachesDispatch registry agent_name state = true) :
    ((strIn "timeout" (pyLower t) || strIn "timed out" (pyLower t)) =
        true →
      (send_message registry agent_name task state fc fm (.raised t)
          elapsed).result =
        Except.ok (Outcome.error
          ("Request to " ++ agent_name ++
            " timed out. Please ensure the agent is running and try again.")
          agent_name) ∧
      strIn "timed out"
        ("Request to " ++ agent_name ++
          " timed out. Please ensure the agent is running and try again.")
        = true) ∧
    ((strIn "timeout" (pyLower t) || strIn "timed out" (pyLower t)) =
        false →
      (send_message registry agent_name task state fc fm (.raised t)
          elapsed).result =
        Except.ok (Outcome.error
          ("Failed to communicate with " ++ agent_name ++ ": " ++ t)
          agent_name) ∧
      strIn t ("Failed to communicate with " ++ agent_name ++ ": " ++ t)
        = true) := by
  rw [send_message_dispatch registry agent_name task state fc fm
    (.raised t) elapsed h]
  constructor
  · intro hcond
    constructor
    · simp only [classifyRemote, hcond, if_true]
    · have hb : strIn "timed out"
          " timed out. Please ensure the agent is running and try again." =
          true := by decide
      exact strIn_append_right _ _ _ hb
  · intro hcond
    constructor
    · simp only [classifyRemote, hcond, Bool.false_eq_true, if_false]
    · exact strIn_append_right _ _ _ (strIn_self t)

/-- C8, witness: the amended classification at the exception text
"Read timed out." against a concrete reaching call. -/
theorem c8_witness :
    ((strIn "timeout" (pyLower "Read timed out.") ||
        strIn "timed out" (pyLower "Read timed out.")) = true →
      (send_message ["BudgetAgent"] "BudgetAgent" "plan a trip" emptyState
          "c" "m" (.raised "Read timed out.") 0).result =
        Except.ok (Outcome.error
          ("Request to " ++ "BudgetAgent" ++
            " timed out. Please ensure the agent is running and try again.")
          "BudgetAgent") ∧
      strIn "timed out"
        ("Request to " ++ "BudgetAgent" ++
          " timed out. Please ensure the agent is running and try again.")
        = true) ∧
    ((strIn "timeout" (pyLower "Read timed out.") ||
        strIn "timed out" (pyLower "Read timed out.")) = false →
      (send_message ["BudgetAgent"] "BudgetAgent" "plan a trip" emptyState
          "c" "m" (.raised "Read timed out.") 0).result =
        Except.ok (Outcome.error
          ("Failed to communicate with " ++ "BudgetAgent" ++ ": " ++
            "Read timed out.") "BudgetAgent") ∧
      strIn "Read timed out."
        ("Failed to communicate with " ++ "BudgetAgent" ++ ": " ++
          "Read timed out.") = true) :=
  c8_theorem ["BudgetAgent"] "BudgetAgent" "plan a trip" emptyState
    "c" "m" "Read timed out." 0 (by decide)

/-- C5: if an exception (text `m`) escapes the event-consumption loop of
`_process_request`, the last update emitted is a terminal `failed` status
whose message carries the error text; and on every exit path — the
arbitrary stream `events2`/`exn2` covers normal completion, failure and
exception alike — the session id is absent from the in-flight
`_active_sessions` set afterwards. -/
theorem c5_theorem (active0 : SessSet) (session_id : String)
    (events events2 : List Event) (exn exn2 : Option String) (m : String)
    (h : (runLoop events exn []).2 = some m) :
    (process_request active0 session_id events exn).updates.getLast? =
      some (.status .failed
        (some ("Sorry, something went wrong: " ++ m)) true) ∧
    strIn m ("Sorry, something went wrong: " ++ m) = true ∧
    (process_request active0 session_id events2 exn2).activeSessions
      session_id = false := by
  refine ⟨?_, strIn_append_right _ _ _ (strIn_self m), ?_⟩
  · unfold process_request
    dsimp only
    rw [h]
    exact List.getLast?_concat _
  · unfold process_request
    dsimp only
    cases hr : (runLoop events2 exn2 []).2 with
    | none => simp [sessDiscard]
    | some m2 => simp [sessDiscard]

/-- C5, witness: a stream that raises "model backend unavailable" after
one partial event produces a terminal failed status carrying that text,
and a concrete normally-completing stream leaves the session id out of
the in-flight set. -/
theorem c5_witness :
    (process_request (fun _ => false) "session-1"
        [⟨false, [⟨some "partial", none, none⟩], false⟩]
        (some "model backend unavailable")).updates.getLast? =
      some (.status .failed
        (some ("Sorry, something went wrong: " ++
          "model backend unavailable")) true) ∧
    strIn "model backend unavailable"
      ("Sorry, something went wrong: " ++ "model backend unavailable") =
      true ∧
    (process_request (fun _ => false) "session-1"
        [⟨true, [⟨some "done", none, none⟩], false⟩]
        none).activeSessions "session-1" = false :=
  c5_theorem (fun _ => false) "session-1"
    [⟨false, [⟨some "partial", none, none⟩], false⟩]
    [⟨true, [⟨some "done", none, none⟩], false⟩]
    (some "model backend unavailable") none
    "model backend unavailable" (by decide)
